import Mathlib

/-!
Verification of the Public-Transport-Delay-Analysis dashboard
(src/Public_transport_delay_system.py), as a shallow embedding:
lists of records stand for pandas DataFrame rows in their storage
order, and the pandas column operations used by the script are
embedded as Lean functions on those lists.
-/

namespace TransportDelay

/-- Embedding of `categorize_delay` (src lines 45-53): the if/elif chain
classifying a delay in minutes into one of four labels. -/
def categorize_delay (mins : Int) : String :=
  if mins ≤ 1 then "On Time"
  else if mins = 2 then "Low Delay"
  else if mins ≤ 4 then "Moderate Delay"
  else "High Delay"

/-- One raw JSON item of the upstream `data` list (src lines 26-37).
Each field the loop body reads is `Option`-valued: `none` stands for a
missing key (or a `None` along the nested `relationships.route.data.id`
path), which makes the `try` body raise and the item be skipped. -/
structure RawItem where
  id : Option String
  routeId : Option String
  latitude : Option Rat
  longitude : Option Rat
  currentStatus : Option String
  updatedAt : Option String

/-- The dictionary appended to `vehicle_info` for a retained item
(src lines 28-35). All fields are present: a record is never built
partially. -/
structure VehicleInfo where
  vehicleId : String
  route : String
  latitude : Rat
  longitude : Rat
  currentStatus : String
  updatedAt : String
deriving DecidableEq

/-- Embedding of the `try` body for one item (src lines 27-37): reading
any missing field raises, the bare `except: pass` drops the item. -/
def parseItem (item : RawItem) : Option VehicleInfo :=
  match item.id, item.routeId, item.latitude, item.longitude,
        item.currentStatus, item.updatedAt with
  | some i, some r, some la, some lo, some s, some u =>
    some ⟨i, r, la, lo, s, u⟩
  | _, _, _, _, _, _ => none

/-- Embedding of the whole per-item loop of `fetch_vehicle_data`
(src lines 25-37): the `vehicle_info` list built from the upstream
`data` list, malformed items skipped. -/
def build_vehicle_info (data : List RawItem) : List VehicleInfo :=
  data.filterMap parseItem

/-- One row of the enriched DataFrame `df` returned by
`fetch_vehicle_data` (src lines 39-57): the six fetched columns plus
the derived columns "Delay (min)", "Delay Category" and "Hour". -/
structure VehicleRecord where
  vehicleId : String
  route : String
  latitude : Rat
  longitude : Rat
  currentStatus : String
  updatedAt : String
  delayMin : Int
  delayCategory : String
  hour : Nat
deriving DecidableEq

/-- Embedding of the filter block (src lines 70-76): start from a copy
of `df` and successively keep the rows equal to each selector, skipping
a selector when it holds its sentinel ("None" for the two id selectors,
"All" for the category selector). -/
def applyFilters (df : List VehicleRecord)
    (search_vehicle search_route delay_filter : String) :
    List VehicleRecord :=
  let filtered1 :=
    if search_vehicle ≠ "None" then
      df.filter (fun r => r.vehicleId == search_vehicle)
    else df
  let filtered2 :=
    if search_route ≠ "None" then
      filtered1.filter (fun r => r.route == search_route)
    else filtered1
  if delay_filter ≠ "All" then
    filtered2.filter (fun r => r.delayCategory == delay_filter)
  else filtered2

/-- The conjunction of the three selector tests, each vacuous at its
sentinel: the predicate the filter block is claimed to implement. -/
def matchesSelectors (search_vehicle search_route delay_filter : String)
    (r : VehicleRecord) : Bool :=
  (search_vehicle == "None" || r.vehicleId == search_vehicle) &&
  (search_route == "None" || r.route == search_route) &&
  (delay_filter == "All" || r.delayCategory == delay_filter)

theorem beq_false_of_ne {α : Type} [BEq α] [LawfulBEq α] {a b : α}
    (h : ¬ a = b) : (a == b) = false := by
  simp [h]

theorem applyFilters_eq_filter (df : List VehicleRecord)
    (sv sr dl : String) :
    applyFilters df sv sr dl =
      df.filter (matchesSelectors sv sr dl) := by
  unfold applyFilters
  by_cases hv : sv = "None" <;> by_cases hr : sr = "None" <;>
    by_cases hd : dl = "All"
  · simp [hv, hr, hd]
    symm
    rw [List.filter_eq_self]
    intro r hmem
    simp [matchesSelectors]
  · simp [hv, hr, hd, List.filter_filter]
    apply List.filter_congr
    intro r hmem
    simp [matchesSelectors, beq_false_of_ne hd]
  · simp [hv, hr, hd, List.filter_filter]
    apply List.filter_congr
    intro r hmem
    simp [matchesSelectors, beq_false_of_ne hr]
  · simp [hv, hr, hd, List.filter_filter]
    apply List.filter_congr
    intro r hmem
    simp [matchesSelectors, beq_false_of_ne hr, beq_false_of_ne hd,
      Bool.and_comm, Bool.and_left_comm, Bool.and_assoc]
  · simp [hv, hr, hd, List.filter_filter]
    apply List.filter_congr
    intro r hmem
    simp [matchesSelectors, beq_false_of_ne hv]
  · simp [hv, hr, hd, List.filter_filter]
    apply List.filter_congr
    intro r hmem
    simp [matchesSelectors, beq_false_of_ne hv, beq_false_of_ne hd,
      Bool.and_comm, Bool.and_left_comm, Bool.and_assoc]
  · simp [hv, hr, hd, List.filter_filter]
    apply List.filter_congr
    intro r hmem
    simp [matchesSelectors, beq_false_of_ne hv, beq_false_of_ne hr,
      Bool.and_comm, Bool.and_left_comm, Bool.and_assoc]
  · simp [hv, hr, hd, List.filter_filter]
    apply List.filter_congr
    intro r hmem
    simp [matchesSelectors, beq_false_of_ne hv, beq_false_of_ne hr,
      beq_false_of_ne hd, Bool.and_comm, Bool.and_left_comm,
      Bool.and_assoc]

/-- The memo state of a time-based cache: the wall-clock second of the
last real fetch and the value it produced. -/
structure FetchCache (α : Type) where
  fetchedAt : Nat
  value : α

/-- Modelled from the spec: the `@st.cache_data(ttl=60)` decorator on
`fetch_vehicle_data` (src line 19) is streamlit library code, not part
of this repository. Per the spec, results are memoized for 60 seconds
of wall-clock time: a call within the window returns the stored
in-memory value without a network request, a later call performs the
fetch again and stores the fresh value. The returned Bool records
whether a network request was issued. -/
def cachedFetch {α : Type} (compute : Nat → α) (now : Nat) :
    Option (FetchCache α) → α × FetchCache α × Bool
  | some c =>
    if now - c.fetchedAt < 60 then (c.value, c, false)
    else (compute now, ⟨now, compute now⟩, true)
  | none => (compute now, ⟨now, compute now⟩, true)

/-- Row order produced by `sort_values("Delay (min)", ascending=False)`:
delay values non-increasing. -/
def delayDescOrder (a b : VehicleRecord) : Prop :=
  b.delayMin ≤ a.delayMin

/-- Row order produced by `sort_values("Delay (min)")` (ascending):
delay values non-decreasing. -/
def delayAscOrder (a b : VehicleRecord) : Prop :=
  a.delayMin ≤ b.delayMin

instance : DecidableRel delayDescOrder :=
  fun a b => inferInstanceAs (Decidable (b.delayMin ≤ a.delayMin))

instance : DecidableRel delayAscOrder :=
  fun a b => inferInstanceAs (Decidable (a.delayMin ≤ b.delayMin))

instance : IsTotal VehicleRecord delayDescOrder :=
  ⟨fun a b => le_total b.delayMin a.delayMin⟩

instance : IsTotal VehicleRecord delayAscOrder :=
  ⟨fun a b => le_total a.delayMin b.delayMin⟩

instance : IsTrans VehicleRecord delayDescOrder :=
  ⟨fun _ _ _ hab hbc => le_trans hbc hab⟩

instance : IsTrans VehicleRecord delayAscOrder :=
  ⟨fun _ _ _ hab hbc => le_trans hab hbc⟩

/-- One concrete refinement of
`df.sort_values("Delay (min)", ascending=False)` (src lines 94, 150):
a sort on the delay column realized here as an insertion sort. The
pandas call uses the default kind="quicksort", which is documented as
not stable, so this picks one admissible output among
`IsSortValuesDescResult`; it is used only where the conclusion does
not depend on the order of delay ties. -/
def sort_values_delay_desc (df : List VehicleRecord) :
    List VehicleRecord :=
  List.insertionSort delayDescOrder df

/-- One concrete refinement of `df.sort_values("Delay (min)")`
ascending (src line 178); as with the descending variant, one
admissible output among `IsSortValuesAscResult`. -/
def sort_values_delay_asc (df : List VehicleRecord) :
    List VehicleRecord :=
  List.insertionSort delayAscOrder df

/-- The possible results of
`df.sort_values("Delay (min)", ascending=False)` (src lines 94, 150)
under the default kind="quicksort", which pandas documents as not
stable: any reordering of the frame that is non-increasing in the
delay column, the relative order of delay ties being unspecified. -/
def IsSortValuesDescResult (df s : List VehicleRecord) : Prop :=
  s.Perm df ∧ s.Sorted delayDescOrder

/-- The possible results of `df.sort_values("Delay (min)")` ascending
(src line 178) under the default unstable sort: any reordering of the
frame that is non-decreasing in the delay column. -/
def IsSortValuesAscResult (df s : List VehicleRecord) : Prop :=
  s.Perm df ∧ s.Sorted delayAscOrder

/-- Model of Python `str.lower()` on the character list of a string. -/
def pyLower (s : List Char) : List Char :=
  s.map Char.toLower

/-- Model of Python `str.strip()`: drop whitespace from both ends. -/
def pyStrip (s : List Char) : List Char :=
  ((s.dropWhile Char.isWhitespace).reverse.dropWhile
    Char.isWhitespace).reverse

/-- The normalization `.lower().strip()` applied to both sides of the
prediction route match (src line 174). -/
def normRoute (s : String) : String :=
  ⟨pyStrip (pyLower s.data)⟩

/-- Embedding of the route restriction of the prediction panel
(src line 174): case-insensitive, whitespace-trimmed exact match of the
Route column against the selected route id. -/
def route_df (df : List VehicleRecord) (ai_route : String) :
    List VehicleRecord :=
  df.filter (fun r => normRoute r.route == normRoute ai_route)

/-- A well-formed upstream item. -/
def goodItem : RawItem :=
  ⟨some "y1886", some "66", some 42, some (-71), some "IN_TRANSIT_TO",
    some "2025-01-01T09:20:00-05:00"⟩

/-- A malformed upstream item: its latitude is missing. -/
def badItem : RawItem :=
  ⟨some "y1700", some "66", none, some (-71), some "STOPPED_AT",
    some "2025-01-01T09:25:00-05:00"⟩

/-- A concrete record whose Vehicle ID is the literal string "None". -/
def recNoneId : VehicleRecord :=
  ⟨"None", "66", 42, -71, "STOPPED_AT", "2025-01-01T08:10:00-05:00",
    3, "Moderate Delay", 8⟩

/-- A second concrete record, with an ordinary Vehicle ID. -/
def recOrdinary : VehicleRecord :=
  ⟨"y1886", "66", 42, -71, "IN_TRANSIT_TO", "2025-01-01T09:20:00-05:00",
    5, "High Delay", 9⟩

/-- Outcome of the "Vehicle Delays in Same Route" section
(src lines 144-160): no filtered rows at all, a single vehicle on the
route (degenerate, "Only one vehicle found for this route."), or the
bar-chart row list. -/
inductive ComparisonView where
  | noSelection : ComparisonView
  | onlyOne : ComparisonView
  | chart : List VehicleRecord → ComparisonView
deriving DecidableEq

/-- Embedding of the comparison block (src lines 145-160): when the
filtered frame is non-empty, take the Route of its first row, collect
all rows of the full frame on that route, and chart them sorted
descending by delay when there are at least two. -/
def comparison_view (df filtered_df : List VehicleRecord) :
    ComparisonView :=
  match filtered_df.head? with
  | none => ComparisonView.noSelection
  | some first =>
    let vehicles_same_route := df.filter (fun r => r.route == first.route)
    if 1 < vehicles_same_route.length then
      ComparisonView.chart (sort_values_delay_desc vehicles_same_route)
    else ComparisonView.onlyOne

/-- The sorted distinct group keys produced by `groupby("Hour")`
(src line 177): pandas sorts group keys ascending. -/
def hoursSorted (df : List VehicleRecord) : List Nat :=
  List.insertionSort (· ≤ ·) (df.map VehicleRecord.hour).dedup

/-- The per-group aggregate of `groupby("Hour")["Delay (min)"].mean()`
(src line 177): mean delay over the rows of one hour. -/
def mean_delay_at_hour (df : List VehicleRecord) (h : Nat) : Rat :=
  let g := df.filter (fun r => r.hour == h)
  (g.map (fun r => (r.delayMin : Rat))).sum / (g.length : Rat)

/-- Embedding of `Series.idxmin`: the first index label carrying the
minimal value, scanning the labels in their series order. -/
def idxminAux (f : Nat → Rat) : List Nat → Option Nat
  | [] => none
  | h :: hs =>
    match idxminAux f hs with
    | none => some h
    | some m => if f m < f h then some m else some h

/-- Embedding of `best_hour` (src line 177):
`route_df.groupby("Hour")["Delay (min)"].mean().idxmin()`. -/
def best_hour (df : List VehicleRecord) : Option Nat :=
  idxminAux (mean_delay_at_hour df) (hoursSorted df)

/-- A concrete record on route "66" with the maximal delay 6. -/
def recTied1 : VehicleRecord :=
  ⟨"y0001", "66", 42, -71, "STOPPED_AT", "2025-01-01T10:00:00-05:00",
    6, "High Delay", 10⟩

/-- A second concrete record with delay 6, on route "39". -/
def recTied2 : VehicleRecord :=
  ⟨"y0002", "39", 42, -71, "IN_TRANSIT_TO", "2025-01-01T11:00:00-05:00",
    6, "High Delay", 11⟩

/-- A third concrete record, on route "66" with delay 6 like
`recTied1` but a different Vehicle ID. -/
def recTied3 : VehicleRecord :=
  ⟨"y0003", "66", 42, -71, "STOPPED_AT", "2025-01-01T12:00:00-05:00",
    6, "High Delay", 12⟩

end TransportDelay

namespace TransportDelay

/-- C1: for every integer delay in [0,6], `categorize_delay` matches the
fixed threshold table: ≤ 1 → "On Time", = 2 → "Low Delay", 3..4 →
"Moderate Delay", ≥ 5 → "High Delay". -/
theorem categorize_delay_table (m : Int) (h0 : 0 ≤ m) (h6 : m ≤ 6) :
    categorize_delay m =
      if m ≤ 1 then "On Time"
      else if m = 2 then "Low Delay"
      else if 3 ≤ m ∧ m ≤ 4 then "Moderate Delay"
      else "High Delay" := by
  interval_cases m <;> rfl

/-- Witness for C1: the thresholds hold at the concrete input 3. -/
theorem categorize_delay_table_witness :
    categorize_delay 3 =
      if (3 : Int) ≤ 1 then "On Time"
      else if (3 : Int) = 2 then "Low Delay"
      else if 3 ≤ (3 : Int) ∧ (3 : Int) ≤ 4 then "Moderate Delay"
      else "High Delay" :=
  categorize_delay_table 3 (by decide) (by decide)

/-- C2: for every record set and every choice of the three selectors,
the filter block returns exactly the records matching all active
selectors (logical AND, an inactive selector imposing no constraint),
and with no active selector the set is returned unchanged, same records
in the same order. -/
theorem filter_block_and_of_selectors (df : List VehicleRecord)
    (sv sr dl : String) :
    applyFilters df sv sr dl = df.filter (matchesSelectors sv sr dl) ∧
    applyFilters df "None" "None" "All" = df := by
  refine ⟨applyFilters_eq_filter df sv sr dl, ?_⟩
  rw [applyFilters_eq_filter]
  apply List.filter_eq_self.mpr
  intro r hmem
  simp [matchesSelectors]

/-- C9: the filter block is idempotent: filtering an already-filtered
set by the same three selectors yields the same set. -/
theorem filter_block_idempotent (df : List VehicleRecord)
    (sv sr dl : String) :
    applyFilters (applyFilters df sv sr dl) sv sr dl =
      applyFilters df sv sr dl := by
  rw [applyFilters_eq_filter, applyFilters_eq_filter]
  simp [List.filter_filter]

/-- C10: the strings "None" and "All" are in-band sentinels: on a record
set that contains a record whose Vehicle ID or Route is literally
"None", selecting "None" (and "All" for the category) applies no
constraint and returns the full set, so such a record is never isolated
by that selector. -/
theorem none_sentinel_never_isolates (df : List VehicleRecord)
    (h : ∃ rec ∈ df, rec.vehicleId = "None" ∨ rec.route = "None") :
    applyFilters df "None" "None" "All" = df := by
  rw [applyFilters_eq_filter]
  apply List.filter_eq_self.mpr
  intro r hmem
  simp [matchesSelectors]

/-- C3: an upstream item missing any required field is excluded from
the built record set entirely (it can never appear partially, as
`VehicleInfo` has no optional field), and its failure does not abort
the processing of the remaining items. -/
theorem malformed_item_skipped (xs ys : List RawItem) (bad : RawItem)
    (h : bad.id = none ∨ bad.routeId = none ∨ bad.latitude = none ∨
      bad.longitude = none ∨ bad.currentStatus = none ∨
      bad.updatedAt = none) :
    build_vehicle_info (xs ++ bad :: ys) =
      build_vehicle_info xs ++ build_vehicle_info ys := by
  have hp : parseItem bad = none := by
    unfold parseItem
    split
    · rcases h with h | h | h | h | h | h <;> simp_all
    · rfl
  unfold build_vehicle_info
  rw [List.filterMap_append]
  simp [List.filterMap_cons, hp]

/-- Witness for C3: dropping the concrete latitude-less item between
two good items removes only that item. -/
theorem malformed_item_skipped_witness :
    (badItem.id = none ∨ badItem.routeId = none ∨
      badItem.latitude = none ∨ badItem.longitude = none ∨
      badItem.currentStatus = none ∨ badItem.updatedAt = none) ∧
    build_vehicle_info ([goodItem] ++ badItem :: [goodItem]) =
      build_vehicle_info [goodItem] ++ build_vehicle_info [goodItem] :=
  ⟨Or.inr (Or.inr (Or.inl rfl)),
    malformed_item_skipped [goodItem] [goodItem] badItem
      (Or.inr (Or.inr (Or.inl rfl)))⟩

/-- C4: a fetch within 60 wall-clock seconds of the cached fetch
returns the identical in-memory value with no network request; a fetch
at or after the 60-second mark issues a new request and returns the
freshly computed value, which may differ. -/
theorem cache_within_window {α : Type} (compute : Nat → α)
    (c : FetchCache α) (now later : Nat)
    (hwin : now - c.fetchedAt < 60) :
    cachedFetch compute now (some c) = (c.value, c, false) ∧
    (60 ≤ later - c.fetchedAt →
      cachedFetch compute later (some c) =
        (compute later, ⟨later, compute later⟩, true)) := by
  constructor
  · simp [cachedFetch, hwin]
  · intro h
    simp [cachedFetch, Nat.not_lt.mpr h]

/-- Witness for C4: with a cache filled at second 100 holding [7], a
fetch at second 150 is served from memory and a fetch at second 160
recomputes. -/
theorem cache_within_window_witness :
    150 - (100 : Nat) < 60 ∧
    (cachedFetch (fun n => [n]) 150 (some ⟨100, [7]⟩) =
        ([7], ⟨100, [7]⟩, false) ∧
      (60 ≤ 160 - (100 : Nat) →
        cachedFetch (fun n => [n]) 160 (some ⟨100, [7]⟩) =
          ([160], ⟨160, [160]⟩, true))) :=
  ⟨by decide,
    cache_within_window (fun n => [n]) ⟨100, [7]⟩ 150 160 (by decide)⟩

/-- Witness for C10: on the concrete two-record set containing
`recNoneId`, selecting "None"/"None"/"All" returns the full set. -/
theorem none_sentinel_never_isolates_witness :
    (∃ rec ∈ [recNoneId, recOrdinary],
        rec.vehicleId = "None" ∨ rec.route = "None") ∧
    applyFilters [recNoneId, recOrdinary] "None" "None" "All" =
      [recNoneId, recOrdinary] := by
  constructor
  · exact ⟨recNoneId, by simp, Or.inl rfl⟩
  · exact none_sentinel_never_isolates [recNoneId, recOrdinary]
      ⟨recNoneId, by simp, Or.inl rfl⟩

/-- Counterexample for C5 as originally stated: in the two-record set
[recTied1, recTied2] both records tie at delay 6 and recTied1 comes
first in fetch order, yet the reversed order is also a possible result
of the unstable descending `sort_values` at src line 94, and its first
row does not carry recTied1's Vehicle ID — the program does not
guarantee the fetch-order tie-break. -/
theorem most_delayed_tie_not_first_row :
    recTied1.delayMin = recTied2.delayMin ∧
    IsSortValuesDescResult [recTied1, recTied2] [recTied2, recTied1] ∧
    [recTied2, recTied1].head?.map VehicleRecord.vehicleId ≠
      some recTied1.vehicleId := by
  refine ⟨rfl, ⟨List.Perm.swap recTied1 recTied2 [], ?_⟩, by decide⟩
  decide

/-- C5 (amended): on every non-empty record set, every possible result
of the descending delay sort at src line 94 carries in its first row —
whose Vehicle ID the "Most Delayed Vehicle" metric reports — a record
of maximal delay; which of several tied maximal records appears there
is not determined. -/
theorem most_delayed_is_some_max (df s : List VehicleRecord)
    (hne : df ≠ []) (hs : IsSortValuesDescResult df s) :
    ∃ m, s.head? = some m ∧ m ∈ df ∧
      ∀ x ∈ df, x.delayMin ≤ m.delayMin := by
  obtain ⟨hperm, hsorted⟩ := hs
  cases s with
  | nil => exact absurd hperm.symm.eq_nil hne
  | cons m t =>
    refine ⟨m, rfl, hperm.mem_iff.mp (List.mem_cons_self m t), ?_⟩
    intro x hx
    rcases List.mem_cons.mp (hperm.mem_iff.mpr hx) with hx1 | hx1
    · subst hx1
      exact le_refl _
    · exact List.rel_of_sorted_cons hsorted x hx1

/-- Witness for C5 (amended): on the concrete set with delays
[5, 6, 6], the insertion-sorted result is one possible sort output and
its first row has maximal delay. -/
theorem most_delayed_is_some_max_witness :
    ([recOrdinary, recTied1, recTied2] : List VehicleRecord) ≠ [] ∧
    IsSortValuesDescResult [recOrdinary, recTied1, recTied2]
      (sort_values_delay_desc [recOrdinary, recTied1, recTied2]) ∧
    ∃ m, (sort_values_delay_desc
        [recOrdinary, recTied1, recTied2]).head? = some m ∧
      m ∈ [recOrdinary, recTied1, recTied2] ∧
      ∀ x ∈ [recOrdinary, recTied1, recTied2],
        x.delayMin ≤ m.delayMin :=
  ⟨List.cons_ne_nil _ _,
    ⟨List.perm_insertionSort _ _, List.sorted_insertionSort _ _⟩,
    most_delayed_is_some_max [recOrdinary, recTied1, recTied2] _
      (List.cons_ne_nil _ _)
      ⟨List.perm_insertionSort _ _, List.sorted_insertionSort _ _⟩⟩

/-- Counterexample for C6 as originally stated: on route "66" the
records recTied1 and recTied3 tie at delay 6 and recTied1 comes first
in fetch order, yet the reversed order is a possible result of the
unstable ascending sort of the route restriction at src line 178, and
its first row is not recTied1 — the first-row-wins tie-break is not
guaranteed. -/
theorem best_vehicle_tie_not_first_row :
    route_df [recTied1, recTied3] " 66" = [recTied1, recTied3] ∧
    recTied1.delayMin = recTied3.delayMin ∧
    IsSortValuesAscResult (route_df [recTied1, recTied3] " 66")
      [recTied3, recTied1] ∧
    [recTied3, recTied1].head?.map VehicleRecord.vehicleId ≠
      some recTied1.vehicleId := by
  have hroute : route_df [recTied1, recTied3] " 66" =
      [recTied1, recTied3] := by decide
  refine ⟨hroute, rfl, ⟨?_, by decide⟩, by decide⟩
  rw [hroute]
  exact List.Perm.swap recTied1 recTied3 []

/-- C6 (amended): on every record set whose restriction to the
selected prediction route (case-insensitive, whitespace-trimmed match)
is non-empty, every possible result of the ascending delay sort at src
line 178 carries in its first row — the reported best vehicle — a
record of that restriction with minimal delay; which of several tied
minimal records appears there is not determined. -/
theorem best_vehicle_is_some_min (df : List VehicleRecord)
    (ai_route : String) (s : List VehicleRecord)
    (hne : route_df df ai_route ≠ [])
    (hs : IsSortValuesAscResult (route_df df ai_route) s) :
    ∃ m, s.head? = some m ∧ m ∈ route_df df ai_route ∧
      ∀ x ∈ route_df df ai_route, m.delayMin ≤ x.delayMin := by
  obtain ⟨hperm, hsorted⟩ := hs
  cases s with
  | nil => exact absurd hperm.symm.eq_nil hne
  | cons m t =>
    refine ⟨m, rfl, hperm.mem_iff.mp (List.mem_cons_self m t), ?_⟩
    intro x hx
    rcases List.mem_cons.mp (hperm.mem_iff.mpr hx) with hx1 | hx1
    · subst hx1
      exact le_refl _
    · exact List.rel_of_sorted_cons hsorted x hx1

/-- Witness for C6 (amended): with routes "66", "66", "39" and delays
6, 5, 6, selecting route " 66" (note the space and the trim), the
insertion-sorted result of the restriction is one possible sort output
and its first row has minimal delay. -/
theorem best_vehicle_is_some_min_witness :
    route_df [recTied1, recOrdinary, recTied2] " 66" ≠ [] ∧
    IsSortValuesAscResult
      (route_df [recTied1, recOrdinary, recTied2] " 66")
      (sort_values_delay_asc
        (route_df [recTied1, recOrdinary, recTied2] " 66")) ∧
    ∃ m, (sort_values_delay_asc
        (route_df [recTied1, recOrdinary, recTied2] " 66")).head? =
          some m ∧
      m ∈ route_df [recTied1, recOrdinary, recTied2] " 66" ∧
      ∀ x ∈ route_df [recTied1, recOrdinary, recTied2] " 66",
        m.delayMin ≤ x.delayMin :=
  ⟨by decide,
    ⟨List.perm_insertionSort _ _, List.sorted_insertionSort _ _⟩,
    best_vehicle_is_some_min [recTied1, recOrdinary, recTied2] " 66" _
      (by decide)
      ⟨List.perm_insertionSort _ _, List.sorted_insertionSort _ _⟩⟩

theorem idxminAux_spec (f : Nat → Rat) (l : List Nat) (hne : l ≠ [])
    (hsort : l.Sorted (· < ·)) :
    ∃ h, idxminAux f l = some h ∧ h ∈ l ∧
      ∀ h' ∈ l, f h ≤ f h' ∧ (f h = f h' → h ≤ h') := by
  induction l with
  | nil => exact absurd rfl hne
  | cons a as ih =>
    by_cases has : as = []
    · subst has
      refine ⟨a, rfl, List.mem_singleton_self a, ?_⟩
      intro h' hh'
      rw [List.mem_singleton] at hh'
      subst hh'
      exact ⟨le_refl _, fun _ => le_refl _⟩
    · obtain ⟨m, hm_eq, hm_mem, hm_min⟩ := ih has hsort.of_cons
      have hstep : idxminAux f (a :: as) =
          if f m < f a then some m else some a := by
        unfold idxminAux
        rw [hm_eq]
      by_cases hcmp : f m < f a
      · refine ⟨m, by rw [hstep, if_pos hcmp],
          List.mem_cons_of_mem a hm_mem, ?_⟩
        intro h' hh'
        rcases List.mem_cons.mp hh' with hh' | hh'
        · subst hh'
          exact ⟨le_of_lt hcmp, fun he => absurd hcmp (by simp [he])⟩
        · exact hm_min h' hh'
      · refine ⟨a, by rw [hstep, if_neg hcmp],
          List.mem_cons_self a as, ?_⟩
        intro h' hh'
        rcases List.mem_cons.mp hh' with hh' | hh'
        · subst hh'
          exact ⟨le_refl _, fun _ => le_refl _⟩
        · refine ⟨le_trans (not_lt.mp hcmp) (hm_min h' hh').1,
            fun _ => ?_⟩
          exact le_of_lt (List.rel_of_sorted_cons hsort h' hh')

theorem hoursSorted_sorted (df : List VehicleRecord) :
    (hoursSorted df).Sorted (· < ·) := by
  have h1 : (hoursSorted df).Sorted (· ≤ ·) :=
    List.sorted_insertionSort _ _
  have h2 : (hoursSorted df).Nodup :=
    (List.perm_insertionSort _ _).nodup_iff.mpr (List.nodup_dedup _)
  exact h1.lt_of_le h2

theorem mem_hoursSorted (df : List VehicleRecord) (h : Nat) :
    h ∈ hoursSorted df ↔ h ∈ df.map VehicleRecord.hour := by
  unfold hoursSorted
  rw [(List.perm_insertionSort _ _).mem_iff, List.mem_dedup]

theorem hoursSorted_ne_nil (df : List VehicleRecord) (h : df ≠ []) :
    hoursSorted df ≠ [] := by
  intro hcon
  cases df with
  | nil => exact h rfl
  | cons r rs =>
    have hmem : r.hour ∈ hoursSorted (r :: rs) :=
      (mem_hoursSorted _ _).mpr
        (List.mem_map_of_mem _ (List.mem_cons_self r rs))
    rw [hcon] at hmem
    exact List.not_mem_nil _ hmem

/-- C7: on every record set whose restriction to the selected
prediction route (case-insensitive, whitespace-trimmed match) is
non-empty, the reported best hour is an hour occurring on that route
that minimizes the mean delay over its records, and among tied hours
the smallest hour value is reported. -/
theorem best_hour_min_mean (df : List VehicleRecord)
    (ai_route : String) (hne : route_df df ai_route ≠ []) :
    ∃ h, best_hour (route_df df ai_route) = some h ∧
      h ∈ (route_df df ai_route).map VehicleRecord.hour ∧
      ∀ h' ∈ (route_df df ai_route).map VehicleRecord.hour,
        mean_delay_at_hour (route_df df ai_route) h ≤
          mean_delay_at_hour (route_df df ai_route) h' ∧
        (mean_delay_at_hour (route_df df ai_route) h =
            mean_delay_at_hour (route_df df ai_route) h' → h ≤ h') := by
  obtain ⟨h, heq, hmem, hmin⟩ :=
    idxminAux_spec (mean_delay_at_hour (route_df df ai_route))
      (hoursSorted (route_df df ai_route))
      (hoursSorted_ne_nil _ hne) (hoursSorted_sorted _)
  exact ⟨h, heq, (mem_hoursSorted _ _).mp hmem,
    fun h' hh' => hmin h' ((mem_hoursSorted _ _).mpr hh')⟩

/-- Witness for C7: on route " 66" with hours 10 (delay 6) and
9 (delay 5), the best hour exists as the theorem states. -/
theorem best_hour_min_mean_witness :
    route_df [recTied1, recOrdinary, recTied2] " 66" ≠ [] ∧
    ∃ h, best_hour (route_df [recTied1, recOrdinary, recTied2] " 66") =
        some h ∧
      h ∈ (route_df [recTied1, recOrdinary, recTied2] " 66").map
        VehicleRecord.hour ∧
      ∀ h' ∈ (route_df [recTied1, recOrdinary, recTied2] " 66").map
          VehicleRecord.hour,
        mean_delay_at_hour
            (route_df [recTied1, recOrdinary, recTied2] " 66") h ≤
          mean_delay_at_hour
            (route_df [recTied1, recOrdinary, recTied2] " 66") h' ∧
        (mean_delay_at_hour
              (route_df [recTied1, recOrdinary, recTied2] " 66") h =
            mean_delay_at_hour
              (route_df [recTied1, recOrdinary, recTied2] " 66") h' →
          h ≤ h') :=
  ⟨by decide,
    best_hour_min_mean [recTied1, recOrdinary, recTied2] " 66"
      (by decide)⟩

/-- C8: whenever the filtered set is non-empty, the comparison section
takes the route of the first filtered record, recomputes over the full
unfiltered set all records on that route, and charts them sorted
descending by delay; with fewer than two such records it degenerates to
the "only one vehicle" message instead of a single-bar chart. -/
theorem comparison_recomputes_full_route (df : List VehicleRecord)
    (sv sr dl : String) (h : applyFilters df sv sr dl ≠ []) :
    ∃ first, (applyFilters df sv sr dl).head? = some first ∧
      ((df.filter (fun r => r.route == first.route)).length < 2 →
        comparison_view df (applyFilters df sv sr dl) =
          ComparisonView.onlyOne) ∧
      (2 ≤ (df.filter (fun r => r.route == first.route)).length →
        ∃ rows,
          comparison_view df (applyFilters df sv sr dl) =
            ComparisonView.chart rows ∧
          rows.Perm (df.filter (fun r => r.route == first.route)) ∧
          rows.Sorted delayDescOrder) := by
  obtain ⟨first, rest, hcons⟩ := List.exists_cons_of_ne_nil h
  have hview : comparison_view df (first :: rest) =
      if 1 < (df.filter (fun r => r.route == first.route)).length then
        ComparisonView.chart
          (sort_values_delay_desc
            (df.filter (fun r => r.route == first.route)))
      else ComparisonView.onlyOne := rfl
  refine ⟨first, by rw [hcons]; rfl, ?_, ?_⟩
  · intro hlen
    rw [hcons, hview, if_neg (by omega)]
  · intro hlen
    refine ⟨sort_values_delay_desc
      (df.filter (fun r => r.route == first.route)), ?_, ?_, ?_⟩
    · rw [hcons, hview, if_pos (by omega)]
    · exact List.perm_insertionSort _ _
    · exact List.sorted_insertionSort _ _

/-- Witness for C8: filtering to route "66" on the concrete set leaves
two vehicles on that route, so the chart case applies as stated. -/
theorem comparison_recomputes_full_route_witness :
    applyFilters [recTied1, recOrdinary, recTied2] "None" "66" "All" ≠
      [] ∧
    ∃ first,
      (applyFilters [recTied1, recOrdinary, recTied2] "None" "66"
        "All").head? = some first ∧
      (([recTied1, recOrdinary, recTied2].filter
          (fun r => r.route == first.route)).length < 2 →
        comparison_view [recTied1, recOrdinary, recTied2]
          (applyFilters [recTied1, recOrdinary, recTied2] "None" "66"
            "All") = ComparisonView.onlyOne) ∧
      (2 ≤ ([recTied1, recOrdinary, recTied2].filter
          (fun r => r.route == first.route)).length →
        ∃ rows,
          comparison_view [recTied1, recOrdinary, recTied2]
            (applyFilters [recTied1, recOrdinary, recTied2] "None" "66"
              "All") = ComparisonView.chart rows ∧
          rows.Perm ([recTied1, recOrdinary, recTied2].filter
            (fun r => r.route == first.route)) ∧
          rows.Sorted delayDescOrder) :=
  ⟨by decide,
    comparison_recomputes_full_route [recTied1, recOrdinary, recTied2]
      "None" "66" "All" (by decide)⟩

end TransportDelay
